import Mathlib

/-!
Verification development for the nextjs-collector extension core pipeline
(file discovery, filtering, categorization, ranking and output assembly),
shallowly embedded from `src/extension.ts`.

Strings are modelled with Lean `String` (list of unicode scalar values).
JavaScript `string.length` counts UTF-16 code units; for the basic
multilingual plane the two notions of length coincide, and no claim here
depends on astral code points.  `Buffer.byteLength(s, 'utf8')` is modelled
by `String.utf8ByteSize`.
-/

namespace NextjsCollector

/-- One collected file record, mirroring the `FileInfo` interface of
`extension.ts` (`path`, `content`, `priority`, `category`, `tokens`, `size`). -/
structure FileInfo where
  path : String
  content : String
  priority : Nat
  category : String
  tokens : Nat
  size : Nat
deriving Repr, DecidableEq

/-- Aggregate statistics, mirroring the `ContextStats` interface.  The
`categories` record of the source is a JavaScript object whose keys keep
insertion order; it is modelled as an association list in that order. -/
structure ContextStats where
  totalFiles : Nat
  totalTokens : Nat
  totalSize : Nat
  categories : List (String × Nat)
deriving Repr, DecidableEq

/-- The `format` union type of `GenerationOptions`. -/
inductive OutputFormat where
  | xml
  | markdown
  | json
deriving Repr, DecidableEq

/-- Mirrors the `GenerationOptions` interface.  `targetLLM` is kept as a
string because `getTokenLimits` performs a dynamic lookup with a fallback. -/
structure GenerationOptions where
  format : OutputFormat
  includePrompts : Bool
  maxTokens : Option Nat := none
  targetLLM : String
deriving Repr, DecidableEq

/-- Mirrors the `UIGenerationOptions` interface (`extends GenerationOptions`).
The optional string fields are modelled with `""` for a missing/falsy value
and the optional list fields with `[]`, matching JavaScript truthiness checks
in `buildEnhancedOutputWithUI`. -/
structure UIGenerationOptions extends GenerationOptions where
  selectedFiles : List String := []
  userPrompt : String := ""
  rules : List String := []
  selectedPrompt : String := ""
deriving Repr, DecidableEq

/-- `estimateTokens` from `extension.ts`: `Math.ceil(content.length / 4)`.
On natural numbers the ceiling of `n / 4` is `(n + 3) / 4`. -/
def estimateTokens (content : String) : Nat :=
  (content.length + 3) / 4

/-- Whether the first list of characters is a prefix of the second. -/
def charsStartWith : List Char → List Char → Bool
  | [], _ => true
  | _ :: _, [] => false
  | a :: pa, b :: lb => a == b && charsStartWith pa lb

/-- Whether `pat` occurs as a contiguous sublist of the second argument. -/
def hasSubList (pat : List Char) : List Char → Bool
  | [] => pat.isEmpty
  | c :: rest => charsStartWith pat (c :: rest) || hasSubList pat rest

/-- JavaScript `String.prototype.includes`: substring containment. -/
def containsSub (s pat : String) : Bool :=
  hasSubList pat.data s.data

/-- JavaScript `String.prototype.startsWith`: prefix test. -/
def strStartsWith (s pre : String) : Bool :=
  charsStartWith pre.data s.data

/-- Split a character list at every occurrence of `sep` (the separator is
dropped; `n` separators yield `n + 1` chunks, possibly empty). -/
def splitOnChar (sep : Char) : List Char → List (List Char)
  | [] => [[]]
  | c :: rest =>
    if c = sep then [] :: splitOnChar sep rest
    else
      match splitOnChar sep rest with
      | [] => [[c]]
      | h :: t => (c :: h) :: t

/-- JavaScript `String.prototype.split('/')`. -/
def splitPath (p : String) : List String :=
  (splitOnChar '/' p.data).map String.mk

/-- Position of the last `'.'` in a list of characters (`i` is the index of
the head, `acc` the last dot position seen so far). -/
def lastDotIdx : List Char → Nat → Option Nat → Option Nat
  | [], _, acc => acc
  | c :: rest, i, acc => lastDotIdx rest (i + 1) (if c = '.' then some i else acc)

/-- Node's `path.basename` on forward-slash relative paths (no trailing
slashes occur in the walker's output). -/
def basename (p : String) : String :=
  (splitPath p).getLastD ("")

/-- Node's `path.extname` applied to a bare file name: the suffix from the
last `'.'`, except that a dot in leading position (dotfiles) yields `""`. -/
def extname (name : String) : String :=
  match lastDotIdx name.data 0 none with
  | some i => if i = 0 then "" else String.mk (name.data.drop i)
  | none => ""

/-- `categorizeFile` from `extension.ts`: the ordered first-match-wins
cascade assigning `(priority, category)` from the relative path, the bare
file name, the extension and (for component directories) the content. -/
def categorizeFile (relativePath content : String) : Nat × String :=
  let fileName := basename relativePath
  let extension := extname fileName
  if fileName == "next.config.js" || fileName == "next.config.mjs" || fileName == "next.config.ts" then
    (100, "A1_NextJS_Config")
  else if fileName == "package.json" then
    (95, "A2_Package_Config")
  else if fileName == "tsconfig.json" || fileName == "jsconfig.json" then
    (90, "A3_TypeScript_Config")
  else if fileName == "tailwind.config.js" || fileName == "tailwind.config.ts" then
    (85, "A4_Styling_Config")
  else if strStartsWith relativePath ("app/") then
    if fileName == "layout.tsx" || fileName == "layout.js" then (80, "B1_App_Layouts")
    else if fileName == "page.tsx" || fileName == "page.js" then (75, "B2_App_Pages")
    else if fileName == "loading.tsx" || fileName == "loading.js" then (70, "B3_App_Loading")
    else if fileName == "error.tsx" || fileName == "error.js" then (70, "B4_App_Error")
    else if fileName == "not-found.tsx" || fileName == "not-found.js" then (65, "B5_App_NotFound")
    else if fileName == "template.tsx" || fileName == "template.js" then (65, "B6_App_Templates")
    else if fileName == "global-error.tsx" || fileName == "global-error.js" then (65, "B7_App_GlobalError")
    else if fileName == "route.ts" || fileName == "route.js" then (72, "B8_App_API_Routes")
    else (60, "B9_App_Other")
  else if strStartsWith relativePath ("pages/") then
    if fileName == "_app.tsx" || fileName == "_app.js" then (78, "C1_Pages_App")
    else if fileName == "_document.tsx" || fileName == "_document.js" then (77, "C2_Pages_Document")
    else if fileName == "_error.tsx" || fileName == "_error.js" then (76, "C3_Pages_Error")
    else if fileName == "404.tsx" || fileName == "404.js" then (74, "C4_Pages_404")
    else if fileName == "500.tsx" || fileName == "500.js" then (73, "C5_Pages_500")
    else if strStartsWith relativePath ("pages/api/") then (71, "C6_Pages_API")
    else (68, "C7_Pages_Other")
  else if strStartsWith relativePath ("components/") || strStartsWith relativePath ("src/components/") then
    if containsSub content ("\x27use client\x27") || containsSub content ("\"use client\"") then
      (55, "D1_Client_Components")
    else (52, "D2_Server_Components")
  else if strStartsWith relativePath ("ui/") || strStartsWith relativePath ("src/ui/") then
    (50, "D3_UI_Components")
  else if strStartsWith relativePath ("hooks/") || strStartsWith relativePath ("src/hooks/") || strStartsWith fileName ("use") then
    (48, "E1_Hooks")
  else if strStartsWith relativePath ("lib/") || strStartsWith relativePath ("src/lib/") ||
      strStartsWith relativePath ("utils/") || strStartsWith relativePath ("src/utils/") then
    (45, "E2_Utils_Lib")
  else if strStartsWith relativePath ("store/") || strStartsWith relativePath ("src/store/") ||
      containsSub relativePath ("redux") || containsSub relativePath ("zustand") ||
      containsSub relativePath ("context") || containsSub relativePath ("provider") then
    (42, "F1_State_Management")
  else if strStartsWith relativePath ("prisma/") || containsSub relativePath ("schema") ||
      containsSub relativePath ("migration") || containsSub relativePath ("seed") then
    (40, "F2_Database")
  else if fileName == "middleware.ts" || fileName == "middleware.js" then
    (82, "A5_Middleware")
  else if extension == ".css" || extension == ".scss" || extension == ".sass" || extension == ".less" then
    if containsSub fileName ("global") || containsSub fileName ("main") || strStartsWith relativePath ("styles/") then
      (35, "G1_Styles")
    else (30, "G2_Component_Styles")
  else if extension == ".ts" || extension == ".tsx" || extension == ".js" || extension == ".jsx" then
    (25, "H1_Other_Code")
  else if extension == ".json" || extension == ".yaml" || extension == ".yml" ||
      containsSub fileName ("config") || containsSub fileName (".env") then
    (20, "H2_Config_Files")
  else if extension == ".md" || extension == ".mdx" then
    (15, "H3_Documentation")
  else (10, "H4_Other")

/-- Stable insertion of `a` into `l`: `a` is placed before the first element
`b` that does not strictly precede it under `lt`.  Used to model the result
of JavaScript's stable `Array.prototype.sort` with a given comparator. -/
def insertBy (lt : α → α → Bool) (a : α) : List α → List α
  | [] => [a]
  | b :: rest => if lt b a then b :: insertBy lt a rest else a :: b :: rest

/-- Stable insertion sort by the strict comparator `lt`; models
`Array.prototype.sort(cmp)` (stable, result ordered by the comparator). -/
def sortBy (lt : α → α → Bool) : List α → List α
  | [] => []
  | a :: rest => insertBy lt a (sortBy lt rest)

/-- The comparator of `scanAndProcessFiles`:
`(a, b) => a.priority !== b.priority ? b.priority - a.priority
         : a.category.localeCompare(b.category)` is negative (a before b)
exactly when this returns `true`.  `localeCompare` is modelled by the
code-point order on strings; the category codes are short ASCII strings on
which the two orders agree. -/
def fileLT (a b : FileInfo) : Bool :=
  if a.priority ≠ b.priority then decide (b.priority < a.priority)
  else decide (a.category < b.category)

/-- The sort performed on the scanned file list in `scanAndProcessFiles`. -/
def sortFiles (files : List FileInfo) : List FileInfo :=
  sortBy fileLT files

/-- Priority-descending / category-ascending order between two files — the
order the spec requires of the rendered file sequence. -/
def fileOrd (a b : FileInfo) : Prop :=
  b.priority < a.priority ∨ (a.priority = b.priority ∧ a.category ≤ b.category)

/-- A directory tree entry, as seen by `scanDirectory` via `readdirSync`
(`withFileTypes` distinguishes files from directories).  A file carries
`some content` when `readFileSync` succeeds on it and `none` when the read
or decode throws. -/
inductive FSEntry where
  | file (name : String) (content : Option String)
  | dir (name : String) (entries : List FSEntry)
deriving Repr

/-- `path.relative(rootPath, path.join(dirPath, name))` for a child of the
directory whose own root-relative path is `parent` (forward slashes; the
scan root itself is `""`). -/
def joinRel (parent name : String) : String :=
  if parent = "" then name else parent ++ "/" ++ name

/-- The record built by `processFile` on a successful read: path, content
and classification; `tokens` and `size` are 0 until the later pass in
`scanAndProcessFiles` fills them in. -/
def mkFileInfo (rel content : String) : FileInfo :=
  let pc := categorizeFile rel content
  { path := rel, content := content, priority := pc.1, category := pc.2
  , tokens := 0, size := 0 }

/-- `scanDirectory` from `extension.ts` over the modelled tree: each entry's
relative path is checked against the ignore predicate `ig` (`ig.ignores`);
ignored entries are skipped (directories without descending), directories
are recursed into, and files go through `processFile`, which returns `null`
(contributing nothing) when the read fails. -/
def scanList (ig : String → Bool) : String → List FSEntry → List FileInfo
  | _, [] => []
  | parent, .file name oc :: rest =>
    (if ig (joinRel parent name) then []
     else
       match oc with
       | some c => [mkFileInfo (joinRel parent name) c]
       | none => []) ++ scanList ig parent rest
  | parent, .dir name entries :: rest =>
    (if ig (joinRel parent name) then []
     else scanList ig (joinRel parent name) entries) ++ scanList ig parent rest

/-- Modelled from the spec: the non-ignored files reachable by the walk,
each paired with the outcome of reading it (`some content` or a failed
read).  This is the reference enumeration that C4 compares `scanList`
against. -/
def walkFilesSpec (ig : String → Bool) : String → List FSEntry → List (String × Option String)
  | _, [] => []
  | parent, .file name oc :: rest =>
    (if ig (joinRel parent name) then [] else [(joinRel parent name, oc)])
      ++ walkFilesSpec ig parent rest
  | parent, .dir name entries :: rest =>
    (if ig (joinRel parent name) then []
     else walkFilesSpec ig (joinRel parent name) entries) ++ walkFilesSpec ig parent rest

/-- The default ignore pattern list of `scanAndProcessFiles`
(`const defaultIgnore = [...]`). -/
def defaultIgnore : List String :=
  ["node_modules/**", ".next/**", ".swc/**", "out/**", "build/**", "dist/**", ".turbo/**",
   ".env*", ".git/**", ".vscode/**", ".idea/**", ".cursor/**", ".windsurf/**",
   "package-lock.json", "yarn.lock", "pnpm-lock.yaml", "bun.lockb",
   "**/*.jpg", "**/*.jpeg", "**/*.png", "**/*.gif", "**/*.ico", "**/*.svg", "**/*.webp", "**/*.avif",
   "**/*.woff", "**/*.woff2", "**/*.ttf", "**/*.eot", "**/*.otf",
   "**/*.mp4", "**/*.webm", "**/*.ogg", "**/*.mp3", "**/*.wav", "**/*.avi", "**/*.mov",
   "**/*.pdf", "**/*.zip", "**/*.tar", "**/*.gz", "**/*.rar", "**/*.7z",
   "**/*.log", "**/*.tmp", "**/tmp/**", "**/temp/**",
   "coverage/**", ".nyc_output/**", "**/*.generated.*", "**/generated/**"]

/-- The fixed root-relative name of the override ignore file. -/
def ignoreFileName : String := ".nextjscollectorignore"

/-- The `ignore` library splits a string passed to `.add` into pattern
lines; modelled as a newline split. -/
def splitLines (s : String) : List String :=
  (splitOnChar '\x0a' s.data).map String.mk

/-- The extra pattern lines contributed by the override ignore file:
`fs.existsSync` guards the read, and a throwing `readFileSync` (modelled by
`readResult = none`) is caught with a warning, adding nothing. -/
def overridePatterns (fileExists : Bool) (readResult : Option String) : List String :=
  if fileExists then
    match readResult with
    | some txt => splitLines txt
    | none => []
  else []

/-- The full ordered pattern list given to the ignore matcher in
`scanAndProcessFiles`: the defaults via `ig.add(defaultIgnore)` first, then
the override file content via `ig.add(ignoreFileContent)`. -/
def buildIgnorePatterns (fileExists : Bool) (readResult : Option String) : List String :=
  defaultIgnore ++ overridePatterns fileExists readResult

/-- One step of the `categories` reduction in `scanAndProcessFiles`:
`acc[f.category] = (acc[f.category] || 0) + 1` on a JavaScript object,
preserving key insertion order. -/
def bumpCategory (acc : List (String × Nat)) (cat : String) : List (String × Nat) :=
  if acc.any (fun p => p.1 == cat) then
    acc.map (fun p => if p.1 == cat then (p.1, p.2 + 1) else p)
  else acc ++ [(cat, 1)]

/-- The `ContextStats` computed at the end of `scanAndProcessFiles` (pure
reductions over the sorted file list). -/
def computeStats (files : List FileInfo) : ContextStats :=
  { totalFiles := files.length
  , totalTokens := files.foldl (fun sum f => sum + f.tokens) 0
  , totalSize := files.foldl (fun sum f => sum + f.size) 0
  , categories := files.foldl (fun acc f => bumpCategory acc f.category) [] }

/-- `scanAndProcessFiles` from `extension.ts`, with the compiled ignore
matcher abstracted as the predicate `ig` (the third-party glob matcher is
outside the model): walk, fill in `tokens` and `size`, sort, aggregate. -/
def scanAndProcessFiles (ig : String → Bool) (tree : List FSEntry) :
    List FileInfo × ContextStats :=
  let walked := scanList ig ("") tree
  let processed := walked.map (fun f =>
    { f with tokens := estimateTokens f.content, size := f.content.utf8ByteSize })
  let sorted := sortFiles processed
  (sorted, computeStats sorted)

/-- The selection filter of `handleUIGeneration`: with a non-empty selection
only files whose path is selected are kept, otherwise all files are kept. -/
def filterBySelection (selectedFiles : List String) (files : List FileInfo) : List FileInfo :=
  if 0 < selectedFiles.length then
    files.filter (fun file => selectedFiles.contains file.path)
  else files

/-- JavaScript `content.replace(/c/g, rep)` for a single-character pattern:
every occurrence of `c` becomes `rep`, all other characters are kept. -/
def replaceCharL (c : Char) (rep : List Char) : List Char → List Char
  | [] => []
  | d :: rest => (if d = c then rep else [d]) ++ replaceCharL c rep rest

/-- `escapeXML` from `extension.ts` on character lists: the five global
replacements in source order (`&` first, then `<`, `>`, `"`, `'`). -/
def escapeXMLChars (l : List Char) : List Char :=
  replaceCharL '\x27' ("&apos;".data)
    (replaceCharL '"' ("&quot;".data)
      (replaceCharL '>' ("&gt;".data)
        (replaceCharL '<' ("&lt;".data)
          (replaceCharL '&' ("&amp;".data) l))))

/-- `escapeXML` from `extension.ts`. -/
def escapeXML (content : String) : String :=
  String.mk (escapeXMLChars content.data)

/-- Modelled from the spec: the per-character escaping map — each of the
five reserved characters becomes its entity, every other character is left
alone.  Reference definition for C3 ("replaces exactly those five"). -/
def escChar (c : Char) : List Char :=
  if c = '&' then ("&amp;".data)
  else if c = '<' then ("&lt;".data)
  else if c = '>' then ("&gt;".data)
  else if c = '"' then ("&quot;".data)
  else if c = '\x27' then ("&apos;".data)
  else [c]

/-- Modelled from the spec: `escChar` applied to every character in turn. -/
def escCharsSpec : List Char → List Char
  | [] => []
  | c :: rest => escChar c ++ escCharsSpec rest

/-- A standard XML text decoder for the five predefined entities
(`&amp; &lt; &gt; &quot; &apos;`); unrecognized ampersands are kept
verbatim.  Used to state the C3 round-trip. -/
def unescapeXMLChars : List Char → List Char
  | [] => []
  | '&' :: 'a' :: 'm' :: 'p' :: ';' :: r => '&' :: unescapeXMLChars r
  | '&' :: 'l' :: 't' :: ';' :: r => '<' :: unescapeXMLChars r
  | '&' :: 'g' :: 't' :: ';' :: r => '>' :: unescapeXMLChars r
  | '&' :: 'q' :: 'u' :: 'o' :: 't' :: ';' :: r => '"' :: unescapeXMLChars r
  | '&' :: 'a' :: 'p' :: 'o' :: 's' :: ';' :: r => '\x27' :: unescapeXMLChars r
  | c :: rest => c :: unescapeXMLChars rest

/-- String-level wrapper around `unescapeXMLChars`. -/
def xmlUnescape (s : String) : String :=
  String.mk (unescapeXMLChars s.data)

/-- JavaScript `Array.prototype.join(sep)`. -/
def joinSep (sep : String) : List String → String
  | [] => ""
  | [x] => x
  | x :: y :: rest => x ++ sep ++ joinSep sep (y :: rest)

/-- Lowercase hexadecimal digit. -/
def hexDigitChar (n : Nat) : Char :=
  if n < 10 then Char.ofNat (48 + n) else Char.ofNat (87 + n)

/-- The string escaping performed by `JSON.stringify` on one character. -/
def jsonEscapeChar (c : Char) : List Char :=
  if c = '"' then ['\\', '"']
  else if c = '\\' then ['\\', '\\']
  else if c = '\x08' then ['\\', 'b']
  else if c = '\x09' then ['\\', 't']
  else if c = '\x0a' then ['\\', 'n']
  else if c = '\x0c' then ['\\', 'f']
  else if c = '\x0d' then ['\\', 'r']
  else if c.toNat < 32 then
    ['\\', 'u', '0', '0', hexDigitChar (c.toNat / 16), hexDigitChar (c.toNat % 16)]
  else [c]

/-- `JSON.stringify` string-body escaping. -/
def jsonEscapeList : List Char → List Char
  | [] => []
  | c :: rest => jsonEscapeChar c ++ jsonEscapeList rest

/-- `JSON.stringify` string-body escaping, string level. -/
def jsonEscape (s : String) : String :=
  String.mk (jsonEscapeList s.data)

/-- A JSON string literal as printed by `JSON.stringify`. -/
def jsonStr (s : String) : String :=
  "\"" ++ jsonEscape s ++ "\""

/-- Register `item` under `key` in the project-tree map: a JavaScript
`Map<string, Set<string>>`, so keys and set members keep insertion order
and duplicates are dropped. -/
def addItem (tree : List (String × List String)) (key item : String) :
    List (String × List String) :=
  if tree.any (fun p => p.1 == key) then
    tree.map (fun p =>
      if p.1 == key then (p.1, if p.2.contains item then p.2 else p.2 ++ [item]) else p)
  else tree ++ [(key, [item])]

/-- The per-file inner loop of `generateProjectTree`: walk the `/`-split
segments, registering each segment under its parent path (`none` marks the
root level, key `""`). -/
def registerSegs : List (String × List String) → Option String → List String →
    List (String × List String)
  | tree, _, [] => tree
  | tree, none, p :: rest => registerSegs (addItem tree ("") p) (some p) rest
  | tree, some cur, p :: rest =>
    registerSegs (addItem tree cur p) (some (cur ++ "/" ++ p)) rest

/-- The `Map` built by `generateProjectTree` over all file paths. -/
def buildTree (files : List FileInfo) : List (String × List String) :=
  files.foldl (fun tree f => registerSegs tree none (splitPath f.path)) []

/-- `Array.from(tree.entries()).sort()` uses the default comparator, which
compares `String([key, set])`, i.e. `key + ",[object Set]"`, by code units.
Modelled by comparing the transformed keys with the code-point order. -/
def treeKeyLT (a b : String) : Bool :=
  decide ((a ++ ",[object Set]") < (b ++ ",[object Set]"))

/-- `'  '.repeat(n)`. -/
def strRepeat (s : String) (n : Nat) : String :=
  String.join (List.replicate n s)

/-- `generateProjectTree` from `extension.ts`: build the segment map, sort
its entries with the default array sort, and render each entry's items
indented by the number of non-empty segments of the entry's key. -/
def generateProjectTree (files : List FileInfo) : String :=
  let entries := sortBy (fun p q => treeKeyLT p.1 q.1) (buildTree files)
  joinSep ("\n") (entries.map (fun p =>
    let indent := strRepeat ("  ") (((splitPath p.1).filter (fun s => s != "")).length)
    joinSep ("\n") (p.2.map (fun item => indent ++ item))))

/-- `Number.prototype.toLocaleString()` for a natural number in the default
`en-US`-style grouping: decimal digits with `,` every three. -/
def toLocaleString (n : Nat) : String :=
  String.mk ((commaGroup 0 (toString n).data.reverse).reverse)
where
  /-- Insert a comma after every third digit of the reversed digit list. -/
  commaGroup : Nat → List Char → List Char
    | _, [] => []
    | k, c :: rest => if k = 3 then ',' :: c :: commaGroup 1 rest else c :: commaGroup (k + 1) rest

/-- `(num / den).toFixed(1)` modelled on the exact rational: the nearest
tenth, ties rounded up (the ECMAScript `toFixed` tie rule).  For the
`size / 1024` use the double quotient is exact; for the token-percentage
use the intermediate double rounding could differ from the exact rational
in boundary cases, which no claim depends on. -/
def fixed1 (num den : Nat) : String :=
  let t := (num * 20 + den) / (den * 2)
  toString (t / 10) ++ "." ++ toString (t % 10)

/-- `getTokenLimits` from `extension.ts`: display string and numeric
threshold per target LLM, with the `custom` entry as fallback. -/
def getTokenLimits (llm : String) : String × Nat :=
  if llm == "claude" then ("200k tokens", 150000)
  else if llm == "gpt" then ("128k tokens", 100000)
  else if llm == "gemini" then ("1M tokens", 800000)
  else ("varies", 100000)

/-- `generatePromptSuggestions` from `extension.ts`: the fixed prompt block
plus the token-usage summary against the target LLM's threshold. -/
def generatePromptSuggestions (stats : ContextStats) (targetLLM : String) : String :=
  let tokenInfo := getTokenLimits targetLLM
  "\n\n# 🤖 Ready-to-Use LLM Prompts\n\n## Quick Start Prompts\n\n### 🐛 Bug Analysis\n```\nI have a Next.js application with "
    ++ toString stats.totalFiles
    ++ " files. Please analyze the codebase above and help me:\n\n1. Identify potential bugs or issues\n2. Look for common Next.js anti-patterns\n3. Suggest improvements for better code quality\n4. Point out any security concerns\n\nFocus especially on the App Router structure and server/client component usage.\n```\n\n### 🔄 Refactoring Suggestions\n```\nBased on this Next.js codebase ("
    ++ toString stats.totalFiles
    ++ " files), please provide:\n\n1. Refactoring opportunities to improve code structure\n2. Ways to better utilize Next.js 15+ features\n3. Component optimization suggestions\n4. Performance improvement recommendations\n\nPlease provide specific code examples for your suggestions.\n```\n\n### 📚 Documentation Generation\n```\nPlease create comprehensive documentation for this Next.js project including:\n\n1. Project overview and architecture\n2. Component documentation with props and usage\n3. API routes documentation\n4. Setup and deployment instructions\n5. Code examples and best practices\n\nFormat the output as clear, professional documentation.\n```\n\n### 🚀 Feature Development\n```\nI want to add a new feature to this Next.js application. Based on the current codebase structure:\n\n1. Show me where to place new components/pages\n2. Suggest the best architectural approach\n3. Identify reusable components I can leverage\n4. Recommend state management patterns\n\nFeature description: [DESCRIBE YOUR FEATURE HERE]\n```\n\n## Token Usage\n- **Current context:** ~"
    ++ toLocaleString stats.totalTokens
    ++ " tokens\n- **" ++ targetLLM ++ " limit:** " ++ tokenInfo.1
    ++ "\n- **Efficiency:** " ++ fixed1 (stats.totalTokens * 100) tokenInfo.2
    ++ "% of recommended max\n\n"
    ++ (if tokenInfo.2 < stats.totalTokens then
          "⚠️ **Warning:** Context might be too large. Consider filtering specific directories."
        else "✅ **Good:** Context size is optimal for LLM processing.")
    ++ "\n"

/-- One `<file ...>` element of `buildXMLOutput`, in source order of the
attributes, with the escaped content as element text. -/
def xmlFileEntry (file : FileInfo) : String :=
  "    <file path=\"" ++ file.path ++ "\" category=\"" ++ file.category
    ++ "\" priority=\"" ++ toString file.priority ++ "\" tokens=\"" ++ toString file.tokens
    ++ "\">\n" ++ escapeXML file.content ++ "\n    </file>"

/-- The fixed XML text up to the generation timestamp. -/
def xmlHeadPre : String :=
  "<?xml version=\"1.0\" encoding=\"UTF-8\"?>\n<codebase>\n  <metadata>\n    <generated>"

/-- The XML metadata/project-tree text between the timestamp and the file
elements. -/
def xmlAfterTs (files : List FileInfo) (stats : ContextStats) (rootPath : String) : String :=
  "</generated>\n    <tool>Next.js Contextify</tool>\n    <format>xml</format>\n    <rootPath>"
    ++ rootPath
    ++ "</rootPath>\n    <stats>\n      <totalFiles>" ++ toString stats.totalFiles
    ++ "</totalFiles>\n      <totalTokens>" ++ toString stats.totalTokens
    ++ "</totalTokens>\n      <totalSize>" ++ toString stats.totalSize
    ++ "</totalSize>\n    </stats>\n  </metadata>\n\n  <projectTree>\n"
    ++ generateProjectTree files
    ++ "\n  </projectTree>\n\n  <files>\n"

/-- The closing XML text. -/
def xmlFooter : String := "\n  </files>\n</codebase>"

/-- `buildXMLOutput` from `extension.ts`. -/
def buildXMLOutput (files : List FileInfo) (stats : ContextStats)
    (rootPath timestamp : String) (options : GenerationOptions) : String :=
  let header := xmlHeadPre ++ timestamp ++ xmlAfterTs files stats rootPath
  let fileContents := joinSep ("\n\n") (files.map xmlFileEntry)
  let output := header ++ fileContents ++ xmlFooter
  if options.includePrompts then
    output ++ "\n\n" ++ generatePromptSuggestions stats options.targetLLM
  else output

/-- The fenced-code language tag of `buildMarkdownOutput`:
`path.extname(file.path).slice(1) || 'text'`. -/
def mdLang (p : String) : String :=
  let e := String.mk ((extname (basename p)).data.drop 1)
  if e == "" then "text" else e

/-- One file section of `buildMarkdownOutput`. -/
def mdFileEntry (file : FileInfo) : String :=
  "### " ++ file.path ++ "\n**Category:** " ++ file.category ++ " | **Priority:** "
    ++ toString file.priority ++ " | **Tokens:** ~" ++ toString file.tokens
    ++ "\n\n```" ++ mdLang file.path ++ "\n" ++ file.content ++ "\n```\n\n---\n"

/-- The fixed Markdown text up to the generation timestamp. -/
def mdHeadPre : String := "# Next.js Contextify Output\n\n**Generated:** "

/-- The Markdown header text after the timestamp, through the project
structure block.  `toLocaleString` renders the token count and
`fixed1 _ 1024` the KB size, as in the source's `toLocaleString()` /
`toFixed(1)` calls. -/
def mdAfterTs (files : List FileInfo) (stats : ContextStats) (rootPath : String) : String :=
  "  \n**Root Path:** " ++ rootPath
    ++ "  \n**Files:** " ++ toString stats.totalFiles
    ++ "  \n**Estimated Tokens:** ~" ++ toLocaleString stats.totalTokens
    ++ "  \n**Total Size:** " ++ fixed1 stats.totalSize 1024
    ++ " KB\n\n## Project Structure\n\n```\n"
    ++ generateProjectTree files
    ++ "\n```\n\n## File Contents\n\n"

/-- `buildMarkdownOutput` from `extension.ts`. -/
def buildMarkdownOutput (files : List FileInfo) (stats : ContextStats)
    (rootPath timestamp : String) (options : GenerationOptions) : String :=
  let header := mdHeadPre ++ timestamp ++ mdAfterTs files stats rootPath
  let fileContents := joinSep ("\n") (files.map mdFileEntry)
  let output := header ++ fileContents
  if options.includePrompts then
    output ++ "\n\n" ++ generatePromptSuggestions stats options.targetLLM
  else output

/-- The `categories` object of the JSON metadata, as `JSON.stringify`
prints it at its nesting depth (keys in insertion order). -/
def jsonCategories (cats : List (String × Nat)) : String :=
  if cats.isEmpty then "\x7b\x7d"
  else
    "\x7b\n"
      ++ joinSep (",\n") (cats.map (fun p => "        " ++ jsonStr p.1 ++ ": " ++ toString p.2))
      ++ "\n      \x7d"

/-- One element of the `files` array of the JSON output, with the key order
of the object literal in `buildEnhancedOutput`. -/
def jsonFileObject (f : FileInfo) : String :=
  "    \x7b\n      \"path\": " ++ jsonStr f.path
    ++ ",\n      \"category\": " ++ jsonStr f.category
    ++ ",\n      \"priority\": " ++ toString f.priority
    ++ ",\n      \"tokens\": " ++ toString f.tokens
    ++ ",\n      \"content\": " ++ jsonStr f.content
    ++ "\n    \x7d"

/-- The `files` array of the JSON output. -/
def jsonFilesArr (files : List FileInfo) : String :=
  if files.isEmpty then "[]"
  else "[\n" ++ joinSep (",\n") (files.map jsonFileObject) ++ "\n  ]"

/-- The fixed JSON text up to the generation timestamp (which sits inside
the `generated` string literal). -/
def jsonHeadPre : String := "\x7b\n  \"metadata\": \x7b\n    \"generated\": \""

/-- The JSON metadata text between the timestamp and the `files` array. -/
def jsonAfterTs (stats : ContextStats) (rootPath : String) : String :=
  "\",\n    \"rootPath\": " ++ jsonStr rootPath
    ++ ",\n    \"stats\": \x7b\n      \"totalFiles\": " ++ toString stats.totalFiles
    ++ ",\n      \"totalTokens\": " ++ toString stats.totalTokens
    ++ ",\n      \"totalSize\": " ++ toString stats.totalSize
    ++ ",\n      \"categories\": " ++ jsonCategories stats.categories
    ++ "\n    \x7d,\n    \"format\": \"json\",\n    \"tool\": \"Next.js Contextify\"\n  \x7d,\n  \"files\": "

/-- The JSON branch of `buildEnhancedOutput`:
`JSON.stringify({metadata: {...}, files: [...]}, null, 2)` for the fixed
object shape built there, rendered with its two-space indentation and the
insertion key order of the object literals. -/
def buildJSONOutput (files : List FileInfo) (stats : ContextStats)
    (rootPath timestamp : String) : String :=
  jsonHeadPre ++ jsonEscape timestamp ++ jsonAfterTs stats rootPath
    ++ jsonFilesArr files
    ++ "\n\x7d"

/-- `buildEnhancedOutput` from `extension.ts`, with the generation timestamp
(`new Date().toISOString()`) passed explicitly. -/
def buildEnhancedOutput (files : List FileInfo) (stats : ContextStats)
    (rootPath : String) (options : GenerationOptions) (timestamp : String) : String :=
  match options.format with
  | .json => buildJSONOutput files stats rootPath timestamp
  | .xml => buildXMLOutput files stats rootPath timestamp options
  | .markdown => buildMarkdownOutput files stats rootPath timestamp options

/-- How the timestamp is embedded per format (the JSON format escapes it as
a JSON string body; XML and Markdown embed it verbatim). -/
def tsRender : OutputFormat → String → String
  | .json, ts => jsonEscape ts
  | _, ts => ts

/-- The `'bug-fix'` template of `buildPromptOutput`, as a function of the
embedded context document. -/
def bugFixTemplate (context : String) : String :=
  "# 🐛 Bug Fix Analysis Prompt\n\n"
    ++ context ++
  "\n\n---\n\n## Your Task\nI need help debugging issues in this Next.js application. Please:\n\n1. **Scan for Bugs**: Look through the codebase and identify potential bugs, errors, or problematic patterns\n2. **Next.js Specific Issues**: Check for App Router anti-patterns, improper server/client component usage, or hydration issues\n3. **Code Quality**: Point out code smells, performance issues, or maintainability concerns\n4. **Specific Solutions**: For each issue found, provide specific code fixes with examples\n\n**Focus Areas:**\n- Server/Client component boundaries\n- Data fetching patterns\n- Route handlers and API endpoints\n- State management\n- Performance optimizations\n\nPlease format your response with clear headings and code examples."

/-- The `'refactor'` template of `buildPromptOutput`, as a function of the
embedded context document. -/
def refactorTemplate (context : String) : String :=
  "# 🔄 Refactoring Assistant Prompt\n\n"
    ++ context ++
  "\n\n---\n\n## Refactoring Request\nPlease help me refactor this Next.js codebase to improve:\n\n1. **Code Structure**: Better organization and modularity\n2. **Modern Patterns**: Utilize latest Next.js 15+ features\n3. **Performance**: Optimize for better loading and runtime performance\n4. **Maintainability**: Make code easier to understand and modify\n\n**Specific Areas:**\n- Component composition and reusability\n- Custom hooks and utility functions\n- File organization and naming\n- TypeScript usage and type safety\n- Styling and CSS organization\n\nFor each suggestion, provide before/after code examples showing the improvement."

/-- The `'docs'` template of `buildPromptOutput`, as a function of the
embedded context document. -/
def docsTemplate (context : String) : String :=
  "# 📚 Documentation Generation Prompt\n\n"
    ++ context ++
  "\n\n---\n\n## Documentation Request\nCreate comprehensive, professional documentation for this Next.js project including:\n\n1. **Project Overview**\n   - Purpose and key features\n   - Technology stack and architecture\n   - Project structure explanation\n\n2. **Setup Guide**\n   - Installation instructions\n   - Environment setup\n   - Development workflow\n\n3. **Component Documentation**\n   - All reusable components with props\n   - Usage examples\n   - Integration patterns\n\n4. **API Documentation**\n   - All API routes and endpoints\n   - Request/response examples\n   - Authentication/authorization\n\n5. **Deployment Guide**\n   - Build process\n   - Deployment options\n   - Production considerations\n\nFormat as clear, structured markdown suitable for a README or wiki."

/-- The `'review'` template of `buildPromptOutput`, as a function of the
embedded context document. -/
def reviewTemplate (context : String) : String :=
  "# 🔍 Code Review Prompt\n\n"
    ++ context ++
  "\n\n---\n\n## Code Review Request\nPlease conduct a thorough code review of this Next.js application covering:\n\n1. **Architecture Review**\n   - Overall project structure\n   - Design patterns usage\n   - Separation of concerns\n\n2. **Code Quality**\n   - TypeScript usage and type safety\n   - Error handling\n   - Code consistency and style\n\n3. **Next.js Best Practices**\n   - App Router implementation\n   - Server/Client component usage\n   - Data fetching strategies\n   - Route handling\n\n4. **Performance & Security**\n   - Bundle optimization\n   - Loading strategies\n   - Security vulnerabilities\n   - SEO considerations\n\nRate each area (1-10) and provide specific recommendations for improvements."

/-- The `'feature'` template of `buildPromptOutput`, as a function of the
embedded context document. -/
def featureTemplate (context : String) : String :=
  "# 🚀 Feature Development Prompt\n\n"
    ++ context ++
  "\n\n---\n\n## Feature Development Request\nI want to add a new feature to this Next.js application. Based on the current codebase:\n\n1. **Architecture Analysis**\n   - Where should new components/pages go?\n   - What\x27s the best approach given current structure?\n   - Which existing components can I reuse?\n\n2. **Implementation Plan**\n   - Detailed step-by-step development plan\n   - Required files and their locations\n   - Integration points with existing code\n\n3. **Code Templates**\n   - Provide starter code following project patterns\n   - Include proper TypeScript types\n   - Follow established naming conventions\n\n**Feature Description:** [Please describe your feature here]\n\nPlease provide a complete implementation roadmap with code examples."

/-- The `'performance'` template of `buildPromptOutput`, as a function of the
embedded context document. -/
def performanceTemplate (context : String) : String :=
  "# ⚡ Performance Optimization Prompt\n\n"
    ++ context ++
  "\n\n---\n\n## Performance Analysis Request\nAnalyze this Next.js application for performance optimization opportunities:\n\n1. **Bundle Analysis**\n   - Large dependencies or unused code\n   - Code splitting opportunities\n   - Dynamic import suggestions\n\n2. **Rendering Optimization**\n   - Server vs Client component decisions\n   - Streaming and Suspense usage\n   - Loading states and UX\n\n3. **Data Fetching**\n   - Caching strategies\n   - Parallel data loading\n   - Waterfall elimination\n\n4. **Core Web Vitals**\n   - LCP (Largest Contentful Paint) improvements\n   - CLS (Cumulative Layout Shift) fixes\n   - FID/INP optimization\n\nProvide specific, actionable recommendations with code examples for each optimization."

/-- The `'architecture'` template of `buildPromptOutput`, as a function of the
embedded context document. -/
def architectureTemplate (context : String) : String :=
  "# 🏗️ Architecture Deep Dive Prompt\n\n"
    ++ context ++
  "\n\n---\n\n## Architecture Analysis Request\nProvide a comprehensive analysis of this Next.js application\x27s architecture:\n\n1. **Current Architecture Assessment**\n   - Architectural patterns used\n   - Layer separation and boundaries\n   - Data flow and state management\n\n2. **Strengths & Weaknesses**\n   - What\x27s working well?\n   - What needs improvement?\n   - Potential scalability issues\n\n3. **Modern Next.js Alignment**\n   - App Router utilization\n   - Server/Client component strategy\n   - Edge runtime usage\n\n4. **Improvement Roadmap**\n   - Short-term fixes\n   - Long-term architectural goals\n   - Migration strategies\n\nInclude architectural diagrams (text-based) and specific implementation recommendations."

/-- The fixed key set of the `prompts` map in `buildPromptOutput`. -/
def promptKeys : List String :=
  ["bug-fix", "refactor", "docs", "review", "feature", "performance", "architecture"]

/-- `buildPromptOutput` from `extension.ts`: look the prompt type up in the
fixed template map and fall back to the `'review'` template
(`prompts[promptType] || prompts['review']`).  The `stats` argument is
accepted but unused, as in the source. -/
def buildPromptOutput (context promptType : String) (_stats : ContextStats) : String :=
  if promptType == "bug-fix" then bugFixTemplate context
  else if promptType == "refactor" then refactorTemplate context
  else if promptType == "docs" then docsTemplate context
  else if promptType == "review" then reviewTemplate context
  else if promptType == "feature" then featureTemplate context
  else if promptType == "performance" then performanceTemplate context
  else if promptType == "architecture" then architectureTemplate context
  else reviewTemplate context

/-- One entry of `EXTENDED_PROMPT_LIBRARY`. -/
structure PromptRecord where
  title : String
  description : String
  prompt : String
deriving Repr, DecidableEq

/-- `EXTENDED_PROMPT_LIBRARY` from `extension.ts`: keys in declaration
order, each with its `title`, `description` and `prompt` text. -/
def EXTENDED_PROMPT_LIBRARY : List (String × PromptRecord) :=
 [("bug-fix",
   { title := "🐛 Bug Fix Analysis",
     description := "Generate context for debugging specific issues",
     prompt := "As an expert debugging assistant, please analyze this Next.js codebase and help me identify and fix bugs. \n\nFocus on:\n- Runtime errors and exceptions\n- Logic errors and unexpected behavior  \n- Performance bottlenecks\n- Memory leaks\n- State management issues\n- API integration problems\n- Styling/layout bugs\n- TypeScript errors\n\nPlease provide:\n1. A thorough analysis of potential issues\n2. Root cause identification\n3. Step-by-step solutions\n4. Best practices to prevent similar issues\n5. Testing recommendations" }),
  ("feature-development",
   { title := "🚀 Feature Development",
     description := "Context for new feature implementation",
     prompt := "As a senior Next.js developer, help me implement new features in this codebase.\n\nPlease analyze the existing architecture and provide:\n1. Implementation strategy that aligns with current patterns\n2. Component design recommendations\n3. State management approach\n4. API integration patterns\n5. Testing strategy\n6. Performance considerations\n7. Accessibility compliance\n8. SEO optimization for new pages\n\nConsider:\n- Next.js App Router best practices\n- Server Components vs Client Components\n- Data fetching strategies\n- Caching strategies\n- Error boundaries\n- Loading states" }),
  ("refactoring",
   { title := "🔄 Refactoring Help",
     description := "Context for large-scale code refactoring",
     prompt := "As a code architecture expert, help me refactor this Next.js codebase for better maintainability, performance, and scalability.\n\nFocus areas:\n1. Code organization and structure\n2. Component decomposition\n3. Custom hooks extraction\n4. Type safety improvements\n5. Performance optimizations\n6. Bundle size reduction\n7. Code duplication removal\n8. Design pattern implementation\n\nProvide:\n- Detailed refactoring plan\n- Priority recommendations\n- Migration strategies\n- Risk assessment\n- Testing approach during refactoring" }),
  ("code-review",
   { title := "🔍 Code Review",
     description := "Prepare for thorough code review",
     prompt := "As a lead developer conducting a comprehensive code review, please analyze this Next.js codebase.\n\nReview criteria:\n1. **Code Quality**: Clean code principles, readability, maintainability\n2. **Architecture**: Component structure, separation of concerns, SOLID principles\n3. **Performance**: Bundle size, rendering performance, Core Web Vitals\n4. **Security**: XSS prevention, data validation, authentication/authorization\n5. **Accessibility**: WCAG compliance, semantic HTML, keyboard navigation\n6. **SEO**: Meta tags, structured data, sitemap, robots.txt\n7. **Testing**: Test coverage, test quality, testing strategies\n8. **Best Practices**: Next.js patterns, React patterns, TypeScript usage\n\nProvide specific feedback with:\n- Issue severity (Critical/High/Medium/Low)\n- Exact file locations\n- Before/after code examples\n- Actionable recommendations" }),
  ("performance-optimization",
   { title := "⚡ Performance Optimization",
     description := "Analyze for performance improvements",
     prompt := "As a performance optimization specialist, analyze this Next.js application for improvements.\n\nPerformance audit focus:\n1. **Core Web Vitals**: LCP, FID, CLS optimization\n2. **Bundle Analysis**: Code splitting, tree shaking, dead code elimination\n3. **Image Optimization**: Next.js Image component usage, formats, lazy loading\n4. **Caching Strategies**: ISR, SSG, client-side caching\n5. **Database Queries**: N+1 problems, query optimization\n6. **API Performance**: Response times, caching headers\n7. **Client-Side Performance**: JavaScript execution, memory usage\n8. **Loading Strategies**: Progressive loading, skeleton screens\n\nProvide:\n- Performance metrics analysis\n- Optimization recommendations with impact estimates\n- Implementation priority\n- Monitoring suggestions\n- Tools and techniques recommendations" }),
  ("architecture-analysis",
   { title := "🏗️ Architecture Analysis",
     description := "Deep dive into project architecture",
     prompt := "As a software architect, provide a comprehensive analysis of this Next.js application architecture.\n\nArchitecture review:\n1. **Project Structure**: Directory organization, file naming conventions\n2. **Component Architecture**: Composition patterns, reusability, props design\n3. **State Management**: Global vs local state, data flow patterns\n4. **Data Layer**: API design, data fetching patterns, caching strategies\n5. **Routing Strategy**: File-based routing usage, dynamic routes, middleware\n6. **Styling Architecture**: CSS organization, theming, responsive design\n7. **Configuration Management**: Environment variables, feature flags\n8. **Error Handling**: Error boundaries, logging, user feedback\n\nEvaluate:\n- Scalability potential\n- Maintainability score\n- Technical debt assessment\n- Migration path recommendations\n- Team collaboration efficiency" }),
  ("documentation",
   { title := "📚 Documentation Generation",
     description := "Create comprehensive documentation",
     prompt := "As a technical writer and developer, create comprehensive documentation for this Next.js project.\n\nDocumentation scope:\n1. **README**: Setup, installation, development workflow\n2. **API Documentation**: Endpoints, parameters, responses, examples\n3. **Component Library**: Props, usage examples, design system\n4. **Architecture Guide**: Project structure, patterns, conventions\n5. **Deployment Guide**: Environment setup, CI/CD, monitoring\n6. **Contributing Guide**: Code standards, review process, testing\n7. **Troubleshooting**: Common issues, debugging steps\n8. **Changelog**: Version history, breaking changes, migration guides\n\nFormat requirements:\n- Clear, concise language\n- Code examples with syntax highlighting\n- Visual diagrams where helpful\n- Interactive examples when possible\n- Searchable structure" }),
  ("onboarding",
   { title := "👋 Developer Onboarding",
     description := "Help new developers understand the codebase",
     prompt := "As a senior developer creating an onboarding guide, help new team members understand this Next.js codebase.\n\nOnboarding coverage:\n1. **Project Overview**: Purpose, goals, target audience\n2. **Technology Stack**: Frameworks, libraries, tools explanation\n3. **Development Setup**: Step-by-step environment setup\n4. **Codebase Tour**: Key directories, important files, entry points\n5. **Development Workflow**: Git flow, testing, deployment\n6. **Common Tasks**: How to add features, fix bugs, run tests\n7. **Code Standards**: Conventions, patterns, best practices\n8. **Resources**: Documentation links, learning materials\n\nCreate:\n- Beginner-friendly explanations\n- Hands-on exercises\n- Common gotchas and solutions\n- Quick reference guides\n- Contact points for help" }),
  ("security-audit",
   { title := "🔒 Security Audit",
     description := "Comprehensive security analysis",
     prompt := "As a cybersecurity expert, conduct a thorough security audit of this Next.js application.\n\nSecurity assessment areas:\n1. **Authentication & Authorization**: JWT handling, session management, RBAC\n2. **Input Validation**: XSS prevention, SQL injection, CSRF protection\n3. **Data Protection**: Encryption, sensitive data handling, PII compliance\n4. **API Security**: Rate limiting, CORS, input sanitization\n5. **Dependencies**: Vulnerability scanning, supply chain security\n6. **Configuration**: Environment variables, secrets management\n7. **Client-Side Security**: Content Security Policy, secure headers\n8. **Infrastructure**: HTTPS enforcement, security headers\n\nProvide:\n- Vulnerability assessment with CVSS scores\n- Specific remediation steps\n- Security best practices implementation\n- Compliance checklist (GDPR, OWASP Top 10)\n- Monitoring and alerting recommendations" }),
  ("testing-strategy",
   { title := "🧪 Testing Strategy",
     description := "Comprehensive testing analysis and recommendations",
     prompt := "As a QA engineer and testing specialist, analyze this Next.js codebase and create a comprehensive testing strategy.\n\nTesting analysis:\n1. **Current Test Coverage**: Unit, integration, e2e test analysis\n2. **Testing Gaps**: Untested components, edge cases, error scenarios\n3. **Test Quality**: Assertion quality, test maintainability, flakiness\n4. **Testing Tools**: Jest, Testing Library, Playwright, Cypress evaluation\n5. **Performance Testing**: Load testing, stress testing, memory leaks\n6. **Accessibility Testing**: Screen reader compatibility, keyboard navigation\n7. **Visual Regression**: UI consistency, responsive design testing\n8. **API Testing**: Contract testing, error handling, rate limiting\n\nRecommendations:\n- Testing pyramid strategy\n- Test automation roadmap\n- CI/CD integration\n- Quality gates and metrics\n- Mock strategies and test data management" }),
  ("migration-planning",
   { title := "🔄 Migration Planning",
     description := "Plan migrations to newer technologies",
     prompt := "As a migration specialist, help plan and execute migrations for this Next.js application.\n\nMigration assessment:\n1. **Current State Analysis**: Technology versions, dependencies, technical debt\n2. **Target State Definition**: Goals, requirements, constraints\n3. **Gap Analysis**: What needs to change, compatibility issues\n4. **Risk Assessment**: Breaking changes, data loss risks, downtime\n5. **Migration Strategy**: Phased approach, rollback plans, testing strategy\n6. **Resource Planning**: Timeline, team requirements, training needs\n7. **Communication Plan**: Stakeholder updates, documentation, training\n\nCommon migration types:\n- Next.js version upgrades (Pages Router to App Router)\n- React version updates\n- TypeScript adoption\n- State management library changes\n- Styling system migrations\n- Database migrations\n- Hosting platform changes\n\nProvide detailed migration roadmap with timelines and milestones." })]

/-- `EXTENDED_PROMPT_LIBRARY[key]` as an optional lookup. -/
def extLookup (key : String) : Option PromptRecord :=
  (EXTENDED_PROMPT_LIBRARY.find? (fun p => p.1 == key)).map (fun p => p.2)

/-- `buildEnhancedOutputWithUI` from `extension.ts`: base output first; a
recognized `selectedPrompt` wraps it with the library record's title and
prompt plus optional instruction/rule sections; otherwise supplied
instructions/rules still get a `Custom Analysis Request` header; with
neither, the base output is returned unchanged. -/
def buildEnhancedOutputWithUI (files : List FileInfo) (stats : ContextStats)
    (rootPath : String) (options : UIGenerationOptions) (timestamp : String) : String :=
  let output := buildEnhancedOutput files stats rootPath options.toGenerationOptions timestamp
  match (if options.selectedPrompt ≠ "" then extLookup options.selectedPrompt else none) with
  | some prompt =>
    "# " ++ prompt.title ++ "\n\n" ++ prompt.prompt ++ "\n\n"
      ++ (if options.userPrompt ≠ "" then
            "## Additional Instructions\n\n" ++ options.userPrompt ++ "\n\n"
          else "")
      ++ (if 0 < options.rules.length then
            "## Custom Rules\n\n" ++ joinSep ("\n") (options.rules.map (fun rule => "- " ++ rule)) ++ "\n\n"
          else "")
      ++ "---\n\n# Codebase Context\n\n" ++ output
  | none =>
    if options.userPrompt ≠ "" ∨ 0 < options.rules.length then
      "# Custom Analysis Request\n\n"
        ++ (if options.userPrompt ≠ "" then
              "## Instructions\n\n" ++ options.userPrompt ++ "\n\n"
            else "")
        ++ (if 0 < options.rules.length then
              "## Rules\n\n" ++ joinSep ("\n") (options.rules.map (fun rule => "- " ++ rule)) ++ "\n\n"
            else "")
        ++ "---\n\n# Codebase Context\n\n" ++ output
    else output

/-- A non-UI generation run over a modelled tree: `scanAndProcessFiles`
followed by `buildEnhancedOutput`, with the timestamp made explicit. -/
def generateFromTree (ig : String → Bool) (tree : List FSEntry) (rootPath : String)
    (options : GenerationOptions) (timestamp : String) : String :=
  let fs := scanAndProcessFiles ig tree
  buildEnhancedOutput fs.1 fs.2 rootPath options timestamp

/-- The core of `handleUIGeneration`: scan and aggregate, filter by the
tree-view selection, then build the UI output — the stats passed on are the
ones computed before filtering. -/
def uiGenerate (ig : String → Bool) (tree : List FSEntry) (selectedFiles : List String)
    (rootPath : String) (options : UIGenerationOptions) (timestamp : String) : String :=
  let fs := scanAndProcessFiles ig tree
  let filteredFiles := filterBySelection selectedFiles fs.1
  buildEnhancedOutputWithUI filteredFiles fs.2 rootPath options timestamp

/-! ### Helper lemmas -/

theorem mem_insertBy (lt : α → α → Bool) (a y : α) (l : List α) :
    y ∈ insertBy lt a l ↔ y = a ∨ y ∈ l := by
  induction l with
  | nil => simp [insertBy]
  | cons b rest ih =>
    simp only [insertBy]
    split
    · simp only [List.mem_cons, ih]
      tauto
    · simp only [List.mem_cons]

theorem mem_sortBy (lt : α → α → Bool) (y : α) (l : List α) :
    y ∈ sortBy lt l ↔ y ∈ l := by
  induction l with
  | nil => simp [sortBy]
  | cons a rest ih =>
    simp only [sortBy, mem_insertBy, ih, List.mem_cons]

theorem fileOrd_of_fileLT {a b : FileInfo} (h : fileLT b a = true) : fileOrd b a := by
  unfold fileLT at h
  split_ifs at h with hne
  · exact Or.inl (of_decide_eq_true h)
  · exact Or.inr ⟨by omega, le_of_lt (of_decide_eq_true h)⟩

theorem fileOrd_of_not_fileLT {a b : FileInfo} (h : fileLT b a = false) : fileOrd a b := by
  unfold fileLT at h
  split_ifs at h with hne
  · exact Or.inl (by have := of_decide_eq_false h; omega)
  · exact Or.inr ⟨by omega, le_of_not_lt (of_decide_eq_false h)⟩

theorem fileOrd_trans {a b c : FileInfo} (h1 : fileOrd a b) (h2 : fileOrd b c) :
    fileOrd a c := by
  rcases h1 with h1 | ⟨e1, c1⟩ <;> rcases h2 with h2 | ⟨e2, c2⟩
  · exact Or.inl (by omega)
  · exact Or.inl (by omega)
  · exact Or.inl (by omega)
  · exact Or.inr ⟨by omega, le_trans c1 c2⟩

theorem pairwise_insertBy {a : FileInfo} {l : List FileInfo}
    (h : l.Pairwise fileOrd) : (insertBy fileLT a l).Pairwise fileOrd := by
  induction l with
  | nil => simp [insertBy]
  | cons b rest ih =>
    rcases List.pairwise_cons.mp h with ⟨hb, hrest⟩
    simp only [insertBy]
    split
    · refine List.pairwise_cons.mpr ⟨?_, ih hrest⟩
      intro y hy
      rcases (mem_insertBy _ _ _ _).mp hy with rfl | hy'
      · exact fileOrd_of_fileLT (by assumption)
      · exact hb y hy'
    · refine List.pairwise_cons.mpr ⟨?_, h⟩
      intro y hy
      rcases List.mem_cons.mp hy with rfl | hy'
      · exact fileOrd_of_not_fileLT (by simp_all)
      · exact fileOrd_trans (fileOrd_of_not_fileLT (by simp_all)) (hb y hy')

theorem sortFiles_pairwise (l : List FileInfo) : (sortFiles l).Pairwise fileOrd := by
  unfold sortFiles
  induction l with
  | nil => simp [sortBy]
  | cons a rest ih => exact pairwise_insertBy ih

theorem length_filter_lt_of_mem {p : α → Bool} {l : List α} {x : α}
    (hx : x ∈ l) (hp : p x = false) : (l.filter p).length < l.length := by
  induction l with
  | nil => cases hx
  | cons a rest ih =>
    rcases List.mem_cons.mp hx with rfl | hx'
    · have hle := List.length_filter_le p rest
      simp only [List.filter, hp, List.length_cons]
      omega
    · have hlt := ih hx'
      cases ha : p a <;> simp only [List.filter, ha, List.length_cons] <;> omega

/-! ### Claim theorems -/

/-- C1: for every string, `estimateTokens` is exactly the ceiling of
`length / 4` (it is a multiple-of-4 upper bound and minimal among such
bounds), the pipeline assigns `tokens := estimateTokens content` to every
scanned file, and the documented sample lengths 0, 1, 4, 5 and 4000 give
0, 1, 1, 2 and 1000. -/
theorem estimateTokens_matches_ceil :
    (∀ s : String, s.length ≤ 4 * estimateTokens s ∧ ∀ m, s.length ≤ 4 * m → estimateTokens s ≤ m)
      ∧ (∀ (ig : String → Bool) (tree : List FSEntry) (f : FileInfo),
          f ∈ (scanAndProcessFiles ig tree).1 → f.tokens = estimateTokens f.content)
      ∧ estimateTokens ("") = 0 ∧ estimateTokens ("a") = 1 ∧ estimateTokens ("abcd") = 1
      ∧ estimateTokens ("abcde") = 2
      ∧ estimateTokens (String.mk (List.replicate 4000 'a')) = 1000 := by
  refine ⟨?_, ?_, by decide, by decide, by decide, by decide, ?_⟩
  · intro s
    constructor
    · show s.length ≤ 4 * ((s.length + 3) / 4)
      omega
    · intro m h
      show (s.length + 3) / 4 ≤ m
      omega
  · intro ig tree f hf
    have hf' : f ∈ (scanList ig ("") tree).map (fun g =>
        { g with tokens := estimateTokens g.content, size := g.content.utf8ByteSize }) :=
      (mem_sortBy _ _ _).mp hf
    rcases List.mem_map.mp hf' with ⟨g, _, rfl⟩
    rfl
  · unfold estimateTokens
    rw [show (String.mk (List.replicate 4000 'a')).length = (List.replicate 4000 'a').length from rfl,
      List.length_replicate]

/-- Witness for C1: the minimality hypothesis discharged at a concrete
input (`"abc"` fits into one 4-character token). -/
theorem estimateTokens_matches_ceil_witness : estimateTokens ("abc") ≤ 1 :=
  (estimateTokens_matches_ceil.1 ("abc")).2 1 (by decide)

/-- C5: the default ignore patterns always come first in the compiled
pattern list; an existing, readable override file appends its lines after
them; a missing or unreadable override leaves exactly the defaults; and the
override never removes a default pattern. -/
theorem ignore_defaults_always_active (fileExists : Bool) (readResult : Option String) :
    (buildIgnorePatterns fileExists readResult).take defaultIgnore.length = defaultIgnore
      ∧ (∀ p ∈ defaultIgnore, p ∈ buildIgnorePatterns fileExists readResult)
      ∧ ((fileExists = false ∨ readResult = none) →
          buildIgnorePatterns fileExists readResult = defaultIgnore)
      ∧ (∀ txt, fileExists = true → readResult = some txt →
          buildIgnorePatterns fileExists readResult = defaultIgnore ++ splitLines txt) := by
  refine ⟨?_, ?_, ?_, ?_⟩
  · unfold buildIgnorePatterns
    exact List.take_left _ _
  · intro p hp
    exact List.mem_append_left _ hp
  · rintro (rfl | rfl)
    · rfl
    · cases fileExists <;> rfl
  · rintro txt rfl rfl
    rfl

/-- Witness for C5: with the override file absent the pattern list is
exactly the default list. -/
theorem ignore_defaults_always_active_witness :
    buildIgnorePatterns false none = defaultIgnore :=
  (ignore_defaults_always_active false none).2.2.1 (Or.inl rfl)

/-- C7: with a non-empty selection `S` the filtered list holds exactly the
walked files whose path lies in `S`; with an empty selection it is the
whole walked list. -/
theorem selection_filter_exact (S : List String) (files : List FileInfo) :
    (S ≠ [] → ∀ f, f ∈ filterBySelection S files ↔ f ∈ files ∧ f.path ∈ S)
      ∧ (S = [] → filterBySelection S files = files) := by
  constructor
  · intro hS f
    unfold filterBySelection
    rw [if_pos (List.length_pos.mpr hS)]
    simp [List.mem_filter]
  · rintro rfl
    rfl

/-- Witness for C7: a concrete selected file is kept by the filter. -/
theorem selection_filter_exact_witness :
    mkFileInfo ("a.txt") ("hi") ∈
      filterBySelection (["a.txt"]) ([mkFileInfo ("a.txt") ("hi")]) := by
  have h := (selection_filter_exact (["a.txt"]) ([mkFileInfo ("a.txt") ("hi")])).1
    (by decide) (mkFileInfo ("a.txt") ("hi"))
  exact h.mpr ⟨by simp, by simp [mkFileInfo]⟩

/-- C10: the exact-filename middleware rule (priority 82, `A5_Middleware`)
sits after the directory-prefix rules of the cascade, so it fires only for
paths outside those prefixes: a root-level `middleware.ts` gets
`(82, A5_Middleware)`, while `lib/middleware.ts` is caught earlier by the
`lib/` rule `(45, E2_Utils_Lib)` and `app/middleware.ts` by the `app/`
fallthrough `(60, B9_App_Other)`, for every file content. -/
theorem middleware_rule_order (c : String) :
    categorizeFile ("middleware.ts") c = (82, "A5_Middleware")
      ∧ categorizeFile ("lib/middleware.ts") c = (45, "E2_Utils_Lib")
      ∧ categorizeFile ("app/middleware.ts") c = (60, "B9_App_Other") :=
  ⟨rfl, rfl, rfl⟩

/-- C4: the walk result is exactly the non-ignored reachable files whose
read succeeded, mapped through `processFile` — a failing read contributes
nothing (no placeholder), raises nothing (the function is total), and the
rest of the directory listing is still processed (second conjunct). -/
theorem walker_drops_failed_reads (ig : String → Bool) (parent : String)
    (entries : List FSEntry) :
    scanList ig parent entries =
        (walkFilesSpec ig parent entries).filterMap
          (fun p => p.2.map (fun c => mkFileInfo p.1 c))
      ∧ ∀ name rest,
          scanList ig parent (.file name none :: rest) = scanList ig parent rest := by
  constructor
  · induction parent, entries using scanList.induct ig with
    | case1 parent => simp [scanList, walkFilesSpec]
    | case2 parent name oc rest ih =>
      cases hig : ig (joinRel parent name) <;> cases oc <;>
        simp [scanList, walkFilesSpec, hig, ih]
    | case3 parent name es rest ih1 ih2 =>
      cases hig : ig (joinRel parent name) <;>
        simp [scanList, walkFilesSpec, hig, ih1, ih2]
  · intro name rest
    cases hig : ig (joinRel parent name) <;> simp [scanList, hig]

/-- C2: the ranked list is sorted with priority strictly descending as the
primary key and category ascending as the tie-break, and each of the three
output formats renders its per-file sections by mapping that same ranked
list in order, so the file order coincides across XML, Markdown and JSON. -/
theorem ranked_order_deterministic (l : List FileInfo) :
    (∀ (i j : Fin (sortFiles l).length), i < j →
        ((sortFiles l).get j).priority ≤ ((sortFiles l).get i).priority
          ∧ (((sortFiles l).get i).priority = ((sortFiles l).get j).priority →
              ((sortFiles l).get i).category ≤ ((sortFiles l).get j).category))
      ∧ (∀ (stats : ContextStats) (root ts : String) (opts : GenerationOptions),
          (∃ pre post, buildXMLOutput (sortFiles l) stats root ts opts =
              pre ++ joinSep ("\n\n") ((sortFiles l).map xmlFileEntry) ++ post)
            ∧ (∃ pre post, buildMarkdownOutput (sortFiles l) stats root ts opts =
                pre ++ joinSep ("\n") ((sortFiles l).map mdFileEntry) ++ post)
            ∧ (∃ pre post, buildJSONOutput (sortFiles l) stats root ts =
                pre ++ joinSep (",\n") ((sortFiles l).map jsonFileObject) ++ post)) := by
  constructor
  · intro i j hij
    have hp := List.pairwise_iff_get.mp (sortFiles_pairwise l) i j hij
    rcases hp with h | ⟨he, hc⟩
    · exact ⟨le_of_lt h, fun he' => absurd he' (by omega)⟩
    · exact ⟨le_of_eq he.symm, fun _ => hc⟩
  · intro stats root ts opts
    refine ⟨?_, ?_, ?_⟩
    · simp only [buildXMLOutput]
      split
      · exact ⟨xmlHeadPre ++ ts ++ xmlAfterTs (sortFiles l) stats root,
          xmlFooter ++ "\n\n" ++ generatePromptSuggestions stats opts.targetLLM,
          by simp [String.append_assoc]⟩
      · exact ⟨xmlHeadPre ++ ts ++ xmlAfterTs (sortFiles l) stats root, xmlFooter,
          by simp [String.append_assoc]⟩
    · simp only [buildMarkdownOutput]
      split
      · exact ⟨mdHeadPre ++ ts ++ mdAfterTs (sortFiles l) stats root,
          "\n\n" ++ generatePromptSuggestions stats opts.targetLLM,
          by simp [String.append_assoc]⟩
      · exact ⟨mdHeadPre ++ ts ++ mdAfterTs (sortFiles l) stats root, "",
          by simp [String.append_assoc, String.append_empty]⟩
    · rcases hsl : sortFiles l with _ | ⟨f, fs⟩
      · refine ⟨jsonHeadPre ++ jsonEscape ts ++ jsonAfterTs stats root ++ "[",
          "]" ++ "\n\x7d", ?_⟩
        simp only [buildJSONOutput, jsonFilesArr, joinSep, List.map_nil, List.isEmpty_nil,
          if_pos]
        rw [show ("[]" : String) = "[" ++ "]" from rfl]
        simp [String.append_assoc, String.append_empty]
      · refine ⟨jsonHeadPre ++ jsonEscape ts ++ jsonAfterTs stats root ++ "[\n",
          "\n  ]" ++ "\n\x7d", ?_⟩
        simp only [buildJSONOutput, jsonFilesArr, List.isEmpty_cons, List.map_cons]
        simp [String.append_assoc, joinSep]

/-- Witness for C2: in a concrete two-file ranking the later entry's
priority does not exceed the earlier one's. -/
theorem ranked_order_deterministic_witness :
    ((sortFiles
        [{ path := "a", content := "", priority := 10, category := "H4_Other",
           tokens := 0, size := 0 },
         { path := "b", content := "", priority := 90, category := "A1_NextJS_Config",
           tokens := 0, size := 0 }]).get ⟨1, by decide⟩).priority ≤
      ((sortFiles
        [{ path := "a", content := "", priority := 10, category := "H4_Other",
           tokens := 0, size := 0 },
         { path := "b", content := "", priority := 90, category := "A1_NextJS_Config",
           tokens := 0, size := 0 }]).get ⟨0, by decide⟩).priority :=
  ((ranked_order_deterministic _).1 ⟨0, by decide⟩ ⟨1, by decide⟩ (by decide)).1

theorem replaceCharL_append (c : Char) (rep a b : List Char) :
    replaceCharL c rep (a ++ b) = replaceCharL c rep a ++ replaceCharL c rep b := by
  induction a with
  | nil => rfl
  | cons d rest ih => simp [replaceCharL, ih]

theorem escapeXMLChars_append (a b : List Char) :
    escapeXMLChars (a ++ b) = escapeXMLChars a ++ escapeXMLChars b := by
  simp [escapeXMLChars, replaceCharL_append]

theorem escapeXMLChars_single (c : Char) : escapeXMLChars [c] = escChar c := by
  by_cases h1 : c = '&'
  · subst h1; decide
  by_cases h2 : c = '<'
  · subst h2; decide
  by_cases h3 : c = '>'
  · subst h3; decide
  by_cases h4 : c = '"'
  · subst h4; decide
  by_cases h5 : c = '\x27'
  · subst h5; decide
  simp [escapeXMLChars, replaceCharL, escChar, h1, h2, h3, h4, h5]

theorem escapeXMLChars_cons (c : Char) (l : List Char) :
    escapeXMLChars (c :: l) = escChar c ++ escapeXMLChars l := by
  rw [show c :: l = [c] ++ l from rfl, escapeXMLChars_append, escapeXMLChars_single]

theorem escapeXMLChars_eq_spec (l : List Char) : escapeXMLChars l = escCharsSpec l := by
  induction l with
  | nil => rfl
  | cons c rest ih => rw [escapeXMLChars_cons, escCharsSpec, ih]

set_option maxHeartbeats 1600000 in
theorem unescape_entity_amp (rest : List Char) :
    unescapeXMLChars ('&' :: 'a' :: 'm' :: 'p' :: ';' :: rest) =
      '&' :: unescapeXMLChars rest := by
  simp [unescapeXMLChars]

set_option maxHeartbeats 1600000 in
theorem unescape_entity_lt (rest : List Char) :
    unescapeXMLChars ('&' :: 'l' :: 't' :: ';' :: rest) =
      '<' :: unescapeXMLChars rest := by
  simp [unescapeXMLChars]

set_option maxHeartbeats 1600000 in
theorem unescape_entity_gt (rest : List Char) :
    unescapeXMLChars ('&' :: 'g' :: 't' :: ';' :: rest) =
      '>' :: unescapeXMLChars rest := by
  simp [unescapeXMLChars]

set_option maxHeartbeats 1600000 in
theorem unescape_entity_quot (rest : List Char) :
    unescapeXMLChars ('&' :: 'q' :: 'u' :: 'o' :: 't' :: ';' :: rest) =
      '"' :: unescapeXMLChars rest := by
  simp [unescapeXMLChars]

set_option maxHeartbeats 1600000 in
theorem unescape_entity_apos (rest : List Char) :
    unescapeXMLChars ('&' :: 'a' :: 'p' :: 'o' :: 's' :: ';' :: rest) =
      '\x27' :: unescapeXMLChars rest := by
  simp [unescapeXMLChars]

set_option maxHeartbeats 1600000 in
theorem unescape_other {c : Char} (rest : List Char) (h1 : c ≠ '&') :
    unescapeXMLChars (c :: rest) = c :: unescapeXMLChars rest := by
  conv_lhs => rw [unescapeXMLChars.eq_def]
  split <;> simp_all

theorem unescape_escChar (c : Char) (rest : List Char) :
    unescapeXMLChars (escChar c ++ rest) = c :: unescapeXMLChars rest := by
  by_cases h1 : c = '&'
  · subst h1
    rw [show escChar '&' ++ rest = '&' :: 'a' :: 'm' :: 'p' :: ';' :: rest from rfl]
    exact unescape_entity_amp rest
  by_cases h2 : c = '<'
  · subst h2
    rw [show escChar '<' ++ rest = '&' :: 'l' :: 't' :: ';' :: rest from rfl]
    exact unescape_entity_lt rest
  by_cases h3 : c = '>'
  · subst h3
    rw [show escChar '>' ++ rest = '&' :: 'g' :: 't' :: ';' :: rest from rfl]
    exact unescape_entity_gt rest
  by_cases h4 : c = '"'
  · subst h4
    rw [show escChar '"' ++ rest = '&' :: 'q' :: 'u' :: 'o' :: 't' :: ';' :: rest from rfl]
    exact unescape_entity_quot rest
  by_cases h5 : c = '\x27'
  · subst h5
    rw [show escChar '\x27' ++ rest = '&' :: 'a' :: 'p' :: 'o' :: 's' :: ';' :: rest from rfl]
    exact unescape_entity_apos rest
  rw [show escChar c = [c] by simp [escChar, h1, h2, h3, h4, h5]]
  exact unescape_other rest h1

theorem unescape_escape_list (l : List Char) :
    unescapeXMLChars (escapeXMLChars l) = l := by
  induction l with
  | nil => rfl
  | cons c rest ih => rw [escapeXMLChars_cons, unescape_escChar, ih]

/-- C3: `escapeXML` is exactly the per-character map that turns the five
reserved characters into their entities and leaves every other character
alone (so it is applied once — a second application would rewrite the `&`
of each entity); the XML file element embeds `escapeXML content` as its
body; and decoding with a standard XML text decoder restores the original
content exactly, also for the string holding all five reserved characters. -/
theorem xml_escape_round_trip (content : String) :
    escapeXML content = String.mk (escCharsSpec content.data)
      ∧ xmlUnescape (escapeXML content) = content
      ∧ (∀ f : FileInfo, xmlFileEntry f =
          ("    <file path=\"" ++ f.path ++ "\" category=\"" ++ f.category
            ++ "\" priority=\"" ++ toString f.priority ++ "\" tokens=\"" ++ toString f.tokens
            ++ "\">\n") ++ escapeXML f.content ++ ("\n    </file>"))
      ∧ xmlUnescape (escapeXML ("&<>\"\x27")) = "&<>\"\x27" := by
  refine ⟨?_, ?_, ?_, ?_⟩
  · cases content with
    | mk data =>
      show String.mk (escapeXMLChars data) = String.mk (escCharsSpec data)
      rw [escapeXMLChars_eq_spec]
  · cases content with
    | mk data =>
      show String.mk (unescapeXMLChars (escapeXMLChars data)) = String.mk data
      rw [unescape_escape_list]
  · intro f
    simp [xmlFileEntry, String.append_assoc]
  · show String.mk (unescapeXMLChars (escapeXMLChars ("&<>\"\x27").data)) = _
    rw [unescape_escape_list]

theorem joinSep_decomp_of_mem (sep : String) (f : String → String) {l : List String}
    {r : String} (h : r ∈ l) : ∃ a b, joinSep sep (l.map f) = a ++ f r ++ b := by
  induction l with
  | nil => cases h
  | cons x rest ih =>
    rcases List.mem_cons.mp h with rfl | h'
    · cases rest with
      | nil =>
        exact ⟨"", "", by simp [joinSep, String.append_empty, String.empty_append]⟩
      | cons y t =>
        exact ⟨"", sep ++ joinSep sep ((y :: t).map f),
          by simp [joinSep, String.append_assoc, String.empty_append]⟩
    · rcases ih h' with ⟨a, b, hab⟩
      cases rest with
      | nil => cases h'
      | cons y t =>
        refine ⟨f x ++ sep ++ a, b, ?_⟩
        have hstep : joinSep sep (List.map f (x :: y :: t)) =
            f x ++ sep ++ joinSep sep (List.map f (y :: t)) := by
          simp [joinSep]
        rw [hstep, hab]
        simp only [String.append_assoc]

/-- C6: prompt composition is total — a key of the fixed template set wraps
the formatted context inside that key's template, an unknown or missing key
falls back to the `'review'` template — and in the UI composition any
supplied free-text instructions and every supplied custom rule appear in
the text placed before the `# Codebase Context` block. -/
theorem prompt_composition_total :
    (∀ (ctx k : String) (stats : ContextStats), k ∉ promptKeys →
        buildPromptOutput ctx k stats = reviewTemplate ctx)
      ∧ (∀ k, k ∈ promptKeys → ∀ (ctx : String) (stats : ContextStats),
          ∃ pre post, buildPromptOutput ctx k stats = pre ++ ctx ++ post)
      ∧ (∀ (files : List FileInfo) (stats : ContextStats) (root : String)
            (opts : UIGenerationOptions) (ts : String),
          opts.userPrompt ≠ "" ∨ opts.rules ≠ [] →
          ∃ pre, buildEnhancedOutputWithUI files stats root opts ts =
              pre ++ ("---\n\n# Codebase Context\n\n"
                ++ buildEnhancedOutput files stats root opts.toGenerationOptions ts)
            ∧ (opts.userPrompt ≠ "" → ∃ a b, pre = a ++ opts.userPrompt ++ b)
            ∧ (∀ r ∈ opts.rules, ∃ a b, pre = a ++ ("- " ++ r) ++ b)) := by
  refine ⟨?_, ?_, ?_⟩
  · intro ctx k stats hk
    simp only [promptKeys, List.mem_cons, List.not_mem_nil, or_false, not_or] at hk
    obtain ⟨n1, n2, n3, n4, n5, n6, n7⟩ := hk
    simp [buildPromptOutput, n1, n2, n3, n4, n5, n6, n7]
  · intro k hk ctx stats
    simp only [promptKeys, List.mem_cons, List.not_mem_nil, or_false] at hk
    rcases hk with rfl | rfl | rfl | rfl | rfl | rfl | rfl
    all_goals exact ⟨_, _, rfl⟩
  · intro files stats root opts ts hcond
    cases hlk : (if opts.selectedPrompt ≠ "" then extLookup opts.selectedPrompt else none) with
    | some pr =>
      refine ⟨"# " ++ pr.title ++ "\n\n" ++ pr.prompt ++ "\n\n"
          ++ (if opts.userPrompt ≠ "" then
                "## Additional Instructions\n\n" ++ opts.userPrompt ++ "\n\n" else "")
          ++ (if 0 < opts.rules.length then
                "## Custom Rules\n\n"
                  ++ joinSep ("\n") (opts.rules.map (fun rule => "- " ++ rule)) ++ "\n\n"
              else ""), ?_, ?_, ?_⟩
      · simp only [buildEnhancedOutputWithUI, hlk]
        simp [String.append_assoc]
      · intro hup
        rw [if_pos hup]
        exact ⟨"# " ++ pr.title ++ "\n\n" ++ pr.prompt ++ "\n\n"
            ++ "## Additional Instructions\n\n",
          "\n\n" ++ (if 0 < opts.rules.length then
              "## Custom Rules\n\n"
                ++ joinSep ("\n") (opts.rules.map (fun rule => "- " ++ rule)) ++ "\n\n"
            else ""), by simp only [String.append_assoc]⟩
      · intro r hr
        have hlen : 0 < opts.rules.length := List.length_pos.mpr (List.ne_nil_of_mem hr)
        rw [if_pos hlen]
        obtain ⟨a, b, hj⟩ := joinSep_decomp_of_mem ("\n") (fun rule => "- " ++ rule) hr
        rw [hj]
        exact ⟨"# " ++ pr.title ++ "\n\n" ++ pr.prompt ++ "\n\n"
            ++ (if opts.userPrompt ≠ "" then
                  "## Additional Instructions\n\n" ++ opts.userPrompt ++ "\n\n" else "")
            ++ "## Custom Rules\n\n" ++ a,
          b ++ "\n\n", by simp [String.append_assoc]⟩
    | none =>
      have hcond' : opts.userPrompt ≠ "" ∨ 0 < opts.rules.length := by
        rcases hcond with h | h
        · exact Or.inl h
        · exact Or.inr (List.length_pos.mpr h)
      refine ⟨"# Custom Analysis Request\n\n"
          ++ (if opts.userPrompt ≠ "" then
                "## Instructions\n\n" ++ opts.userPrompt ++ "\n\n" else "")
          ++ (if 0 < opts.rules.length then
                "## Rules\n\n"
                  ++ joinSep ("\n") (opts.rules.map (fun rule => "- " ++ rule)) ++ "\n\n"
              else ""), ?_, ?_, ?_⟩
      · simp only [buildEnhancedOutputWithUI, hlk]
        rw [if_pos hcond']
        simp [String.append_assoc]
      · intro hup
        rw [if_pos hup]
        exact ⟨"# Custom Analysis Request\n\n" ++ "## Instructions\n\n",
          "\n\n" ++ (if 0 < opts.rules.length then
              "## Rules\n\n"
                ++ joinSep ("\n") (opts.rules.map (fun rule => "- " ++ rule)) ++ "\n\n"
            else ""), by simp only [String.append_assoc]⟩
      · intro r hr
        have hlen : 0 < opts.rules.length := List.length_pos.mpr (List.ne_nil_of_mem hr)
        rw [if_pos hlen]
        obtain ⟨a, b, hj⟩ := joinSep_decomp_of_mem ("\n") (fun rule => "- " ++ rule) hr
        rw [hj]
        exact ⟨"# Custom Analysis Request\n\n"
            ++ (if opts.userPrompt ≠ "" then
                  "## Instructions\n\n" ++ opts.userPrompt ++ "\n\n" else "")
            ++ "## Rules\n\n" ++ a,
          b ++ "\n\n", by simp [String.append_assoc]⟩

/-- Witness for C6: an unrecognized key is answered with the review
template instead of an error. -/
theorem prompt_composition_total_witness :
    buildPromptOutput ("CTX") ("not-a-key")
        { totalFiles := 0, totalTokens := 0, totalSize := 0, categories := [] } =
      reviewTemplate ("CTX") :=
  prompt_composition_total.1 ("CTX") ("not-a-key") _ (by decide)

/-- C8: for a fixed tree, ignore predicate, root and options, the generated
document is a fixed string with the timestamp spliced into one slot — two
runs differing only in the timestamp are byte-identical outside it, and
with the timestamp held fixed the output is a deterministic function of the
scanned files and options. -/
theorem generation_deterministic_mod_timestamp (ig : String → Bool) (tree : List FSEntry)
    (root : String) (opts : GenerationOptions) :
    ∃ pre post, ∀ ts, generateFromTree ig tree root opts ts =
      pre ++ tsRender opts.format ts ++ post := by
  rcases hfmt : opts.format with _ | _ | _
  · by_cases hp : opts.includePrompts
    · refine ⟨xmlHeadPre,
        xmlAfterTs (scanAndProcessFiles ig tree).1 (scanAndProcessFiles ig tree).2 root
          ++ joinSep ("\n\n") ((scanAndProcessFiles ig tree).1.map xmlFileEntry)
          ++ xmlFooter ++ "\n\n"
          ++ generatePromptSuggestions (scanAndProcessFiles ig tree).2 opts.targetLLM,
        fun ts => ?_⟩
      simp [generateFromTree, buildEnhancedOutput, hfmt, buildXMLOutput, hp, tsRender,
        String.append_assoc]
    · refine ⟨xmlHeadPre,
        xmlAfterTs (scanAndProcessFiles ig tree).1 (scanAndProcessFiles ig tree).2 root
          ++ joinSep ("\n\n") ((scanAndProcessFiles ig tree).1.map xmlFileEntry)
          ++ xmlFooter,
        fun ts => ?_⟩
      simp [generateFromTree, buildEnhancedOutput, hfmt, buildXMLOutput, hp, tsRender,
        String.append_assoc]
  · by_cases hp : opts.includePrompts
    · refine ⟨mdHeadPre,
        mdAfterTs (scanAndProcessFiles ig tree).1 (scanAndProcessFiles ig tree).2 root
          ++ joinSep ("\n") ((scanAndProcessFiles ig tree).1.map mdFileEntry)
          ++ "\n\n"
          ++ generatePromptSuggestions (scanAndProcessFiles ig tree).2 opts.targetLLM,
        fun ts => ?_⟩
      simp [generateFromTree, buildEnhancedOutput, hfmt, buildMarkdownOutput, hp, tsRender,
        String.append_assoc]
    · refine ⟨mdHeadPre,
        mdAfterTs (scanAndProcessFiles ig tree).1 (scanAndProcessFiles ig tree).2 root
          ++ joinSep ("\n") ((scanAndProcessFiles ig tree).1.map mdFileEntry),
        fun ts => ?_⟩
      simp [generateFromTree, buildEnhancedOutput, hfmt, buildMarkdownOutput, hp, tsRender,
        String.append_assoc]
  · refine ⟨jsonHeadPre,
      jsonAfterTs (scanAndProcessFiles ig tree).2 root
        ++ jsonFilesArr (scanAndProcessFiles ig tree).1 ++ "\n\x7d",
      fun ts => ?_⟩
    simp [generateFromTree, buildEnhancedOutput, hfmt, buildJSONOutput, tsRender,
      String.append_assoc]

/-- C9: `handleUIGeneration` computes the stats over the full walked list
and only then filters by the selection, so the totals describe the
pre-selection set: whenever a non-empty selection excludes some walked
file, `totalFiles` strictly exceeds the number of files rendered in the
document. -/
theorem ui_stats_ignore_selection (ig : String → Bool) (tree : List FSEntry)
    (selected : List String) (root : String) (opts : UIGenerationOptions) (ts : String) :
    (scanAndProcessFiles ig tree).2.totalFiles = (scanAndProcessFiles ig tree).1.length
      ∧ uiGenerate ig tree selected root opts ts =
          buildEnhancedOutputWithUI
            (filterBySelection selected (scanAndProcessFiles ig tree).1)
            (scanAndProcessFiles ig tree).2 root opts ts
      ∧ (selected ≠ [] → ∀ f ∈ (scanAndProcessFiles ig tree).1, f.path ∉ selected →
          (filterBySelection selected (scanAndProcessFiles ig tree).1).length
            < (scanAndProcessFiles ig tree).2.totalFiles) := by
  refine ⟨rfl, rfl, ?_⟩
  intro hsel f hf hnot
  show _ < (scanAndProcessFiles ig tree).1.length
  unfold filterBySelection
  rw [if_pos (List.length_pos.mpr hsel)]
  refine length_filter_lt_of_mem hf ?_
  simpa using hnot

/-- Witness for C9: with two walked files and a selection naming only one
of them, the rendered list is strictly shorter than the reported
`totalFiles`. -/
theorem ui_stats_ignore_selection_witness :
    (filterBySelection (["a.md"])
        (scanAndProcessFiles (fun _ => false)
          [FSEntry.file ("b.txt") (some "x"), FSEntry.file ("a.md") (some "y")]).1).length
      < (scanAndProcessFiles (fun _ => false)
          [FSEntry.file ("b.txt") (some "x"), FSEntry.file ("a.md") (some "y")]).2.totalFiles := by
  have hscan : scanList (fun _ => false) ("")
      [FSEntry.file ("b.txt") (some "x"), FSEntry.file ("a.md") (some "y")] =
      [mkFileInfo ("b.txt") ("x"), mkFileInfo ("a.md") ("y")] := by
    simp [scanList, joinRel]
  have hmem :
      ({ path := "b.txt", content := "x", priority := 10, category := "H4_Other", tokens := 1, size := 1 } : FileInfo) ∈
      (scanAndProcessFiles (fun _ => false)
        [FSEntry.file ("b.txt") (some "x"), FSEntry.file ("a.md") (some "y")]).1 := by
    show _ ∈ sortFiles ((scanList (fun _ => false) ("")
      [FSEntry.file ("b.txt") (some "x"), FSEntry.file ("a.md") (some "y")]).map
        (fun f => { f with tokens := estimateTokens f.content, size := f.content.utf8ByteSize }))
    rw [hscan]
    decide
  exact (ui_stats_ignore_selection (fun _ => false)
      [FSEntry.file ("b.txt") (some "x"), FSEntry.file ("a.md") (some "y")]
      (["a.md"]) ("") { format := .xml, includePrompts := false, targetLLM := "claude" }
      ("")).2.2 (by decide) _ hmem (by decide)

end NextjsCollector
